import Mathlib

/-!
Verification of `src/scripts/wegl-utils.js`.

The file is a set of WebGL helper functions.  We embed them shallowly:
the WebGL rendering context is split into
  * a `GLEnv` of responses the context gives to queries
    (compile/link/validate status, info logs, attribute locations,
    canvas size, and the document's id-to-script-text lookup), and
  * a `GLState` holding the fresh-handle counter and the chronological
    list (trace) of calls made on the context.
Every function of the source becomes an explicit state-passing Lean
function that records each context call in the trace.  Floating point
values that the code merely passes through (clear-color components,
buffer contents) are modelled as `Rat`; the code performs no arithmetic
on them.  JavaScript `throw` becomes `Except.error`; the thrown errors
are distinguished by constructor, carrying the exact message string the
source builds (the missing-element case is the `TypeError` raised by
accessing `.textContent` of a `null` query result).
-/

/- Numeric values of the WebGL enum constants used by the source. -/

def VERTEX_SHADER : Nat := 35633

def FRAGMENT_SHADER : Nat := 35632

def COMPILE_STATUS : Nat := 35713

def LINK_STATUS : Nat := 35714

def VALIDATE_STATUS : Nat := 35715

def ARRAY_BUFFER : Nat := 34962

def STATIC_DRAW : Nat := 35044

def COLOR_BUFFER_BIT : Nat := 16384

def TRIANGLE_STRIP : Nat := 5

def FLOAT : Nat := 5126

/-- The `ColorObject` typedef of the source: an rgba color, fields named
`r`, `g`, `b`, `a` as the code accesses them (`color.r`, ...). -/
structure ColorObject where
  r : Rat
  g : Rat
  b : Rat
  a : Rat
deriving DecidableEq

/-- The `AttributeObject` typedef of the source, produced by
`createAttribute` and consumed by `createBuffer`. -/
structure AttributeObject where
  name : String
  size : Nat
  stride : Nat
  offset : Nat
  type : Nat
  normalized : Bool
deriving DecidableEq

/-- One call made on the WebGL rendering context.  Each constructor is
one method of the context the source invokes, with the arguments it
passes; `deleteProgram` is part of the modelled surface although the
source never calls it, so that its absence from traces is a real
statement. -/
inductive GLCall where
  | createShader (shaderType : Nat)
  | shaderSource (shader : Nat) (source : String)
  | compileShader (shader : Nat)
  | getShaderParameter (shader : Nat) (pname : Nat)
  | getShaderInfoLog (shader : Nat)
  | deleteShader (shader : Nat)
  | createProgram
  | attachShader (program : Nat) (shader : Nat)
  | linkProgram (program : Nat)
  | getProgramParameter (program : Nat) (pname : Nat)
  | getProgramInfoLog (program : Nat)
  | validateProgram (program : Nat)
  | deleteProgram (program : Nat)
  | createBuffer
  | bindBuffer (target : Nat) (buffer : Nat)
  | bufferData (target : Nat) (data : Option (List Rat)) (usage : Nat)
  | getAttribLocation (program : Nat) (name : String)
  | vertexAttribPointer (location : Int) (size : Nat) (type : Nat)
      (normalized : Bool) (stride : Nat) (offset : Nat)
  | enableVertexAttribArray (location : Int)
  | viewport (x : Nat) (y : Nat) (width : Nat) (height : Nat)
  | clearColor (r : Rat) (g : Rat) (b : Rat) (a : Rat)
  | clear (mask : Nat)
  | useProgram (program : Nat)
  | drawArrays (mode : Nat) (first : Nat) (count : Nat)
deriving DecidableEq

/-- The errors the source can throw, distinguished by constructor and
carrying the message text the source builds.  `missingElement` is the
`TypeError` from dereferencing a failed document lookup. -/
inductive GLError where
  | shaderCompile (message : String)
  | programLink (message : String)
  | programValidate (message : String)
  | missingElement (id : String)
deriving DecidableEq

/-- The context's responses to queries, plus the document collaborator:
status answers and logs are keyed by the handle they are queried on,
`attribLoc` answers `getAttribLocation` (possibly the `-1` not-found
sentinel), and `document` is the id-to-script-text lookup backing
`document.querySelector`. -/
structure GLEnv where
  compileOk : Nat → Bool
  shaderLog : Nat → String
  linkOk : Nat → Bool
  validateOk : Nat → Bool
  programLog : Nat → String
  attribLoc : Nat → String → Int
  canvasWidth : Nat
  canvasHeight : Nat
  document : String → Option String

/-- Mutable context state: the next fresh resource handle and the
chronological trace of calls made so far. -/
structure GLState where
  nextHandle : Nat
  trace : List GLCall
deriving DecidableEq

/-- Record one call on the context. -/
def emit (c : GLCall) (s : GLState) : GLState :=
  { s with trace := s.trace ++ [c] }

/-- `makeShader(gl, shaderSource, shaderType)` of the source: create a
shader, attach the source, compile; on bad compile status delete the
shader and throw an error whose message names the kind (vertex iff the
type equals `gl.VERTEX_SHADER`) and appends the info log. -/
def makeShader (env : GLEnv) (shaderSource : String) (shaderType : Nat)
    (s : GLState) : Except GLError Nat × GLState :=
  let newShader := s.nextHandle
  let s := emit (.createShader shaderType) ⟨s.nextHandle + 1, s.trace⟩
  let s := emit (.shaderSource newShader shaderSource) s
  let s := emit (.compileShader newShader) s
  let s := emit (.getShaderParameter newShader COMPILE_STATUS) s
  if env.compileOk newShader then
    (.ok newShader, s)
  else
    let s := emit (.deleteShader newShader) s
    let s := emit (.getShaderInfoLog newShader) s
    (.error (.shaderCompile ("ERROR compiling "
        ++ (if shaderType = VERTEX_SHADER then "vertex" else "fragment")
        ++ " shader: " ++ env.shaderLog newShader)), s)

/-- Derived form of the calls `makeShader` emits, as a pure function of
the handle counter `h` at entry; proven equal to the embedding in
`makeShader_run`. -/
def msTrace (env : GLEnv) (src : String) (shaderType : Nat) (h : Nat) :
    List GLCall :=
  [.createShader shaderType, .shaderSource h src, .compileShader h,
   .getShaderParameter h COMPILE_STATUS]
  ++ (if env.compileOk h then [] else [.deleteShader h, .getShaderInfoLog h])

/-- Derived form of `makeShader`'s result as a pure function of the
entry handle counter; proven equal to the embedding in `makeShader_run`. -/
def msRes (env : GLEnv) (shaderType : Nat) (h : Nat) : Except GLError Nat :=
  if env.compileOk h then .ok h
  else .error (.shaderCompile ("ERROR compiling "
      ++ (if shaderType = VERTEX_SHADER then "vertex" else "fragment")
      ++ " shader: " ++ env.shaderLog h))

lemma makeShader_run (env : GLEnv) (src : String) (ty : Nat) (s : GLState) :
    makeShader env src ty s =
      (msRes env ty s.nextHandle,
       ⟨s.nextHandle + 1, s.trace ++ msTrace env src ty s.nextHandle⟩) := by
  cases h : env.compileOk s.nextHandle <;>
    simp [makeShader, msRes, msTrace, emit, h]

/-- `makeProgram(gl, vertexShader, fragmentShader, validate = true)` of
the source: create a program, attach both shaders, link; throw on bad
link status; if `validate` is set, validate and throw on bad validate
status; otherwise return the program. -/
def makeProgram (env : GLEnv) (vertexShader : Nat) (fragmentShader : Nat)
    (validate : Bool) (s : GLState) : Except GLError Nat × GLState :=
  let program := s.nextHandle
  let s := emit .createProgram ⟨s.nextHandle + 1, s.trace⟩
  let s := emit (.attachShader program vertexShader) s
  let s := emit (.attachShader program fragmentShader) s
  let s := emit (.linkProgram program) s
  let s := emit (.getProgramParameter program LINK_STATUS) s
  if !env.linkOk program then
    let s := emit (.getProgramInfoLog program) s
    (.error (.programLink ("ERROR linking program: " ++ env.programLog program)), s)
  else if validate then
    let s := emit (.validateProgram program) s
    let s := emit (.getProgramParameter program VALIDATE_STATUS) s
    if !env.validateOk program then
      let s := emit (.getProgramInfoLog program) s
      (.error (.programValidate ("ERROR validating program: " ++ env.programLog program)), s)
    else
      (.ok program, s)
  else
    (.ok program, s)

/-- Derived form of the calls `makeProgram` emits, as a pure function of
the entry handle counter `h`; proven equal to the embedding in
`makeProgram_run`. -/
def mpTrace (env : GLEnv) (v : Nat) (f : Nat) (validate : Bool) (h : Nat) :
    List GLCall :=
  [.createProgram, .attachShader h v, .attachShader h f, .linkProgram h,
   .getProgramParameter h LINK_STATUS]
  ++ (if !env.linkOk h then [.getProgramInfoLog h]
      else if validate then
        [.validateProgram h, .getProgramParameter h VALIDATE_STATUS]
        ++ (if !env.validateOk h then [.getProgramInfoLog h] else [])
      else [])

/-- Derived form of `makeProgram`'s result as a pure function of the
entry handle counter; proven equal to the embedding in `makeProgram_run`. -/
def mpRes (env : GLEnv) (validate : Bool) (h : Nat) : Except GLError Nat :=
  if !env.linkOk h then
    .error (.programLink ("ERROR linking program: " ++ env.programLog h))
  else if validate then
    if !env.validateOk h then
      .error (.programValidate ("ERROR validating program: " ++ env.programLog h))
    else .ok h
  else .ok h

lemma makeProgram_run (env : GLEnv) (v f : Nat) (validate : Bool) (s : GLState) :
    makeProgram env v f validate s =
      (mpRes env validate s.nextHandle,
       ⟨s.nextHandle + 1, s.trace ++ mpTrace env v f validate s.nextHandle⟩) := by
  cases hl : env.linkOk s.nextHandle <;> cases validate <;>
    cases hv : env.validateOk s.nextHandle <;>
      simp [makeProgram, mpRes, mpTrace, emit, hl, hv]

/-- `makeProgramFromScripts(gl, shaderIds)` of the source: read the text
content of the element found for each id (the vertex id first, then —
only after the vertex shader compiled — the fragment id), compile both
shaders via `makeShader`, then link via `makeProgram` with its default
`validate = true`.  A failed lookup throws (`TypeError` on `null`)
before any further context call. -/
def makeProgramFromScripts (env : GLEnv) (vertexId : String)
    (fragmentId : String) (s : GLState) : Except GLError Nat × GLState :=
  match env.document vertexId with
  | none => (.error (.missingElement vertexId), s)
  | some vertexSource =>
    match makeShader env vertexSource VERTEX_SHADER s with
    | (.error e, s1) => (.error e, s1)
    | (.ok vertexShader, s1) =>
      match env.document fragmentId with
      | none => (.error (.missingElement fragmentId), s1)
      | some fragmentSource =>
        match makeShader env fragmentSource FRAGMENT_SHADER s1 with
        | (.error e, s2) => (.error e, s2)
        | (.ok fragmentShader, s2) =>
          makeProgram env vertexShader fragmentShader true s2

/-- Derived form of `makeProgramFromScripts`'s result as a pure function
of the entry handle counter `h`; proven equal to the embedding in
`makeProgramFromScripts_run`. -/
def mpfsRes (env : GLEnv) (vid : String) (fid : String) (h : Nat) :
    Except GLError Nat :=
  match env.document vid with
  | none => .error (.missingElement vid)
  | some _ =>
    match msRes env VERTEX_SHADER h with
    | .error e => .error e
    | .ok _ =>
      match env.document fid with
      | none => .error (.missingElement fid)
      | some _ =>
        match msRes env FRAGMENT_SHADER (h + 1) with
        | .error e => .error e
        | .ok _ => mpRes env true (h + 2)

/-- Derived handle counter after `makeProgramFromScripts`, as a pure
function of the entry counter; proven in `makeProgramFromScripts_run`. -/
def mpfsNext (env : GLEnv) (vid : String) (fid : String) (h : Nat) : Nat :=
  match env.document vid with
  | none => h
  | some _ =>
    match msRes env VERTEX_SHADER h with
    | .error _ => h + 1
    | .ok _ =>
      match env.document fid with
      | none => h + 1
      | some _ =>
        match msRes env FRAGMENT_SHADER (h + 1) with
        | .error _ => h + 2
        | .ok _ => h + 3

/-- Derived calls of `makeProgramFromScripts` as a pure function of the
entry handle counter; proven in `makeProgramFromScripts_run`. -/
def mpfsTrace (env : GLEnv) (vid : String) (fid : String) (h : Nat) :
    List GLCall :=
  match env.document vid with
  | none => []
  | some vsrc =>
    msTrace env vsrc VERTEX_SHADER h
    ++ match msRes env VERTEX_SHADER h with
       | .error _ => []
       | .ok _ =>
         match env.document fid with
         | none => []
         | some fsrc =>
           msTrace env fsrc FRAGMENT_SHADER (h + 1)
           ++ match msRes env FRAGMENT_SHADER (h + 1) with
              | .error _ => []
              | .ok _ => mpTrace env h (h + 1) true (h + 2)

lemma makeProgramFromScripts_run (env : GLEnv) (vid fid : String)
    (s : GLState) :
    makeProgramFromScripts env vid fid s =
      (mpfsRes env vid fid s.nextHandle,
       ⟨mpfsNext env vid fid s.nextHandle,
        s.trace ++ mpfsTrace env vid fid s.nextHandle⟩) := by
  rcases hv : env.document vid with _ | vsrc
  · simp [makeProgramFromScripts, mpfsRes, mpfsNext, mpfsTrace, hv]
  · rcases hf : env.document fid with _ | fsrc <;>
      cases hc1 : env.compileOk s.nextHandle <;>
        cases hc2 : env.compileOk (s.nextHandle + 1) <;>
          simp [makeProgramFromScripts, mpfsRes, mpfsNext, mpfsTrace, hv, hf,
            makeShader_run, makeProgram_run, msRes, hc1, hc2]

/-- `createAttribute(name, numElements, numVertex, type, offset = 0,
typeSize = Float32Array.BYTES_PER_ELEMENT, normalized = false)` of the
source.  The JavaScript defaults (`offset = 0`, `typeSize = 4`,
`normalized = false`) are passed explicitly by callers here. -/
def createAttribute (name : String) (numElements : Nat) (numVertex : Nat)
    (type : Nat) (offset : Nat) (typeSize : Nat) (normalized : Bool) :
    AttributeObject :=
  { name := name
    size := numElements
    stride := numVertex * typeSize
    offset := offset * typeSize
    type := type
    normalized := normalized }

/-- The `attributes.forEach` body of `createBuffer` in the source, run
over the list in order: look up the attribute location by name, set the
vertex attribute pointer from the descriptor, enable the location. -/
def configAttributes (env : GLEnv) (program : Nat)
    (attributes : List AttributeObject) (s : GLState) : GLState :=
  match attributes with
  | [] => s
  | attr :: rest =>
    let attrLocation := env.attribLoc program attr.name
    let s := emit (.getAttribLocation program attr.name) s
    let s := emit (.vertexAttribPointer attrLocation attr.size attr.type
        attr.normalized attr.stride attr.offset) s
    let s := emit (.enableVertexAttribArray attrLocation) s
    configAttributes env program rest s

/-- The three context calls the `forEach` body makes for one attribute
descriptor. -/
def attrCalls (env : GLEnv) (program : Nat) (attr : AttributeObject) :
    List GLCall :=
  [.getAttribLocation program attr.name,
   .vertexAttribPointer (env.attribLoc program attr.name) attr.size attr.type
     attr.normalized attr.stride attr.offset,
   .enableVertexAttribArray (env.attribLoc program attr.name)]

/-- Derived calls of the attribute loop; proven equal to the embedding in
`configAttributes_run`. -/
def caTrace (env : GLEnv) (program : Nat) :
    List AttributeObject → List GLCall
  | [] => []
  | attr :: rest => attrCalls env program attr ++ caTrace env program rest

lemma configAttributes_run (env : GLEnv) (program : Nat)
    (attributes : List AttributeObject) (s : GLState) :
    configAttributes env program attributes s =
      ⟨s.nextHandle, s.trace ++ caTrace env program attributes⟩ := by
  induction attributes generalizing s with
  | nil => simp [configAttributes, caTrace]
  | cons attr rest ih =>
    simp [configAttributes, caTrace, attrCalls, emit, ih]

/-- `createBuffer(gl, program, bufferData, attributes, type =
gl.ARRAY_BUFFER, bufferDataType = gl.STATIC_DRAW)` of the source: create
a buffer, bind it, upload the data, then configure each attribute in
order.  The JavaScript defaults are passed explicitly by callers here. -/
def createBuffer (env : GLEnv) (program : Nat)
    (bufferData : Option (List Rat)) (attributes : List AttributeObject)
    (type : Nat) (bufferDataType : Nat) (s : GLState) : GLState :=
  let buffer := s.nextHandle
  let s := emit .createBuffer ⟨s.nextHandle + 1, s.trace⟩
  let s := emit (.bindBuffer type buffer) s
  let s := emit (.bufferData type bufferData bufferDataType) s
  configAttributes env program attributes s

/-- Derived calls of `createBuffer`; proven equal to the embedding in
`createBuffer_run`. -/
def cbTrace (env : GLEnv) (program : Nat) (bufferData : Option (List Rat))
    (attributes : List AttributeObject) (type : Nat) (usage : Nat)
    (h : Nat) : List GLCall :=
  [.createBuffer, .bindBuffer type h, .bufferData type bufferData usage]
  ++ caTrace env program attributes

lemma createBuffer_run (env : GLEnv) (program : Nat)
    (bufferData : Option (List Rat)) (attributes : List AttributeObject)
    (type usage : Nat) (s : GLState) :
    createBuffer env program bufferData attributes type usage s =
      ⟨s.nextHandle + 1,
       s.trace ++ cbTrace env program bufferData attributes type usage
         s.nextHandle⟩ := by
  simp [createBuffer, cbTrace, emit, configAttributes_run]

/-- `clearCanvas(gl, color)` of the source: set the clear color from the
four fields of the color object, then clear the color buffer. -/
def clearCanvas (color : ColorObject) (s : GLState) : GLState :=
  let s := emit (.clearColor color.r color.g color.b color.a) s
  emit (.clear COLOR_BUFFER_BIT) s

/-- `drawCanvas(gl, bufferData = null, attributes = [], shaderIds =
["vertexShader", "fragmentShader"], clearColor = {r:0,g:0,b:0,a:0})` of
the source: build the program from the script tags, create and fill the
buffer, set the viewport to the canvas size, clear, activate the
program, draw a 4-vertex triangle strip.  A thrown error from the first
two steps propagates. -/
def drawCanvas (env : GLEnv) (bufferData : Option (List Rat))
    (attributes : List AttributeObject) (shaderIds : String × String)
    (clearColor : ColorObject) (s : GLState) :
    Except GLError Unit × GLState :=
  match makeProgramFromScripts env shaderIds.1 shaderIds.2 s with
  | (.error e, s1) => (.error e, s1)
  | (.ok program, s1) =>
    let s2 := createBuffer env program bufferData attributes ARRAY_BUFFER
      STATIC_DRAW s1
    let s3 := emit (.viewport 0 0 env.canvasWidth env.canvasHeight) s2
    let s4 := clearCanvas clearColor s3
    let s5 := emit (.useProgram program) s4
    emit (.drawArrays TRIANGLE_STRIP 0 4) s5 |> fun s6 => (.ok (), s6)

/-- Derived calls `drawCanvas` makes after the program is built: buffer
setup, viewport, clear, use-program, draw. -/
def dcTail (env : GLEnv) (bufferData : Option (List Rat))
    (attributes : List AttributeObject) (c : ColorObject)
    (program : Nat) (h : Nat) : List GLCall :=
  cbTrace env program bufferData attributes ARRAY_BUFFER STATIC_DRAW h
  ++ [.viewport 0 0 env.canvasWidth env.canvasHeight,
      .clearColor c.r c.g c.b c.a, .clear COLOR_BUFFER_BIT,
      .useProgram program, .drawArrays TRIANGLE_STRIP 0 4]

/-- Derived calls of `drawCanvas` as a pure function of the entry handle
counter; proven equal to the embedding in `drawCanvas_run`. -/
def dcTrace (env : GLEnv) (bufferData : Option (List Rat))
    (attributes : List AttributeObject) (ids : String × String)
    (c : ColorObject) (h : Nat) : List GLCall :=
  mpfsTrace env ids.1 ids.2 h
  ++ match mpfsRes env ids.1 ids.2 h with
     | .error _ => []
     | .ok program =>
       dcTail env bufferData attributes c program (mpfsNext env ids.1 ids.2 h)

/-- Derived result of `drawCanvas`; proven in `drawCanvas_run`. -/
def dcRes (env : GLEnv) (ids : String × String) (h : Nat) :
    Except GLError Unit :=
  match mpfsRes env ids.1 ids.2 h with
  | .error e => .error e
  | .ok _ => .ok ()

/-- Derived handle counter after `drawCanvas`; proven in
`drawCanvas_run`. -/
def dcNext (env : GLEnv) (ids : String × String) (h : Nat) : Nat :=
  match mpfsRes env ids.1 ids.2 h with
  | .error _ => mpfsNext env ids.1 ids.2 h
  | .ok _ => mpfsNext env ids.1 ids.2 h + 1

lemma drawCanvas_run (env : GLEnv) (bufferData : Option (List Rat))
    (attributes : List AttributeObject) (ids : String × String)
    (c : ColorObject) (s : GLState) :
    drawCanvas env bufferData attributes ids c s =
      (dcRes env ids s.nextHandle,
       ⟨dcNext env ids s.nextHandle,
        s.trace ++ dcTrace env bufferData attributes ids c s.nextHandle⟩) := by
  rcases hres : mpfsRes env ids.1 ids.2 s.nextHandle with e | program <;>
    simp [drawCanvas, dcRes, dcNext, dcTrace, dcTail, makeProgramFromScripts_run,
      hres, createBuffer_run, clearCanvas, emit, List.append_assoc]

/-- Whether a call releases a resource (`deleteShader` or
`deleteProgram`). -/
def isDeleteCall : GLCall → Bool
  | .deleteShader _ => true
  | .deleteProgram _ => true
  | _ => false

/-- Whether a call is a `vertexAttribPointer` configuration. -/
def isPointerCall : GLCall → Bool
  | .vertexAttribPointer _ _ _ _ _ _ => true
  | _ => false

/-- Whether a call is an `enableVertexAttribArray`. -/
def isEnableCall : GLCall → Bool
  | .enableVertexAttribArray _ => true
  | _ => false

lemma caTrace_pointer_count (env : GLEnv) (program : Nat) :
    ∀ attributes : List AttributeObject,
      ((caTrace env program attributes).filter isPointerCall).length
        = attributes.length
  | [] => rfl
  | attr :: rest => by
    simp [caTrace, attrCalls, List.filter_append, isPointerCall,
      caTrace_pointer_count env program rest]

lemma caTrace_enable_count (env : GLEnv) (program : Nat) :
    ∀ attributes : List AttributeObject,
      ((caTrace env program attributes).filter isEnableCall).length
        = attributes.length
  | [] => rfl
  | attr :: rest => by
    simp [caTrace, attrCalls, List.filter_append, isEnableCall,
      caTrace_enable_count env program rest]

lemma caTrace_no_delete (env : GLEnv) (program : Nat) :
    ∀ attributes : List AttributeObject,
      (caTrace env program attributes).filter isDeleteCall = []
  | [] => rfl
  | attr :: rest => by
    simp [caTrace, attrCalls, List.filter_append, isDeleteCall,
      caTrace_no_delete env program rest]

lemma mem_caTrace (env : GLEnv) (program : Nat) (a : AttributeObject) :
    ∀ attributes : List AttributeObject, a ∈ attributes →
      GLCall.vertexAttribPointer (env.attribLoc program a.name) a.size a.type
          a.normalized a.stride a.offset ∈ caTrace env program attributes
      ∧ GLCall.enableVertexAttribArray (env.attribLoc program a.name)
          ∈ caTrace env program attributes := by
  intro attributes ha
  induction attributes with
  | nil => cases ha
  | cons attr rest ih =>
    rcases List.mem_cons.mp ha with h | h
    · subst h
      constructor <;> simp [caTrace, attrCalls]
    · rcases ih h with ⟨h1, h2⟩
      constructor <;> simp [caTrace, h1, h2]

/-- Claim C2: `createAttribute` returns a descriptor with
`stride = numVertex * typeSize` and `offset = offset * typeSize`, keeps
the other inputs verbatim, and the spec's two concrete examples hold:
`createAttribute "pos" 3 6 FLOAT` (with the JavaScript defaults
`offset = 0`, `typeSize = 4`, `normalized = false`) yields
`{name := "pos", size := 3, stride := 24, offset := 0, type := FLOAT,
normalized := false}`, and `createAttribute "uv" 2 6 FLOAT 3` yields
offset `12`. -/
theorem createAttribute_spec :
    (∀ (name : String) (numElements numVertex type offset typeSize : Nat)
        (normalized : Bool),
      createAttribute name numElements numVertex type offset typeSize
          normalized =
        { name := name, size := numElements,
          stride := numVertex * typeSize, offset := offset * typeSize,
          type := type, normalized := normalized })
    ∧ createAttribute "pos" 3 6 FLOAT 0 4 false =
        { name := "pos", size := 3, stride := 24, offset := 0,
          type := FLOAT, normalized := false }
    ∧ (createAttribute "uv" 2 6 FLOAT 3 4 false).offset = 12 :=
  ⟨fun _ _ _ _ _ _ _ => rfl, rfl, rfl⟩

/-- Claim C3: for every list of N attribute descriptors, `createBuffer`
creates, binds and fills the buffer and then configures and enables
exactly N attribute locations, in list order, each with exactly that
descriptor's size, type, normalized, stride and offset (the per-attribute
calls are spelled out by `caTrace`/`attrCalls`). -/
theorem createBuffer_configures_each_attribute (env : GLEnv) (program : Nat)
    (bufferData : Option (List Rat)) (attributes : List AttributeObject)
    (type usage : Nat) (s : GLState) :
    createBuffer env program bufferData attributes type usage s =
      ⟨s.nextHandle + 1,
       s.trace ++ [.createBuffer, .bindBuffer type s.nextHandle,
           .bufferData type bufferData usage]
         ++ caTrace env program attributes⟩
    ∧ ((caTrace env program attributes).filter isPointerCall).length
        = attributes.length
    ∧ ((caTrace env program attributes).filter isEnableCall).length
        = attributes.length := by
  refine ⟨?_, caTrace_pointer_count env program attributes,
    caTrace_enable_count env program attributes⟩
  simp [createBuffer_run, cbTrace, List.append_assoc]

/-- Claim C7: `clearCanvas` sets the context's clear color to exactly the
four components of the given color and then clears the color buffer,
emitting no other call and touching no other state. -/
theorem clearCanvas_sets_color_and_clears (color : ColorObject)
    (s : GLState) :
    clearCanvas color s =
      ⟨s.nextHandle,
       s.trace ++ [.clearColor color.r color.g color.b color.a,
           .clear COLOR_BUFFER_BIT]⟩ := by
  simp [clearCanvas, emit]

/-- Claim C10: for every attribute descriptor in the list, `createBuffer`
neither fails nor skips it: the vertex-attribute-pointer and
enable-attribute calls are made unconditionally with whatever location
value the context returned for its name, including the `-1` not-found
sentinel (the witness instantiates the location to `-1`). -/
theorem createBuffer_passes_through_location (env : GLEnv) (program : Nat)
    (bufferData : Option (List Rat)) (attributes : List AttributeObject)
    (type usage : Nat) (s : GLState) (a : AttributeObject)
    (ha : a ∈ attributes) :
    GLCall.vertexAttribPointer (env.attribLoc program a.name) a.size a.type
        a.normalized a.stride a.offset
      ∈ (createBuffer env program bufferData attributes type usage s).trace
    ∧ GLCall.enableVertexAttribArray (env.attribLoc program a.name)
      ∈ (createBuffer env program bufferData attributes type usage s).trace := by
  rcases mem_caTrace env program a attributes ha with ⟨h1, h2⟩
  rw [createBuffer_run]
  constructor <;> simp [cbTrace, h1, h2]

/-- Claim C4: whenever the context reports an unsuccessful compile
status, `makeShader` deletes the just-created shader (the release call is
in the trace, so no handle leaks) and fails with an error carrying the
shader kind and the driver's info-log text. -/
theorem makeShader_compile_failure (env : GLEnv) (src : String) (ty : Nat)
    (s : GLState) (hc : env.compileOk s.nextHandle = false) :
    makeShader env src ty s =
      (.error (.shaderCompile ("ERROR compiling "
          ++ (if ty = VERTEX_SHADER then "vertex" else "fragment")
          ++ " shader: " ++ env.shaderLog s.nextHandle)),
       ⟨s.nextHandle + 1,
        s.trace ++ [.createShader ty, .shaderSource s.nextHandle src,
          .compileShader s.nextHandle,
          .getShaderParameter s.nextHandle COMPILE_STATUS,
          .deleteShader s.nextHandle, .getShaderInfoLog s.nextHandle]⟩)
    ∧ GLCall.deleteShader s.nextHandle ∈ (makeShader env src ty s).2.trace := by
  constructor
  · simp [makeShader_run, msRes, msTrace, hc]
  · simp [makeShader_run, msTrace, hc]

/-- Claim C5: with `validate = false`, `makeProgram` emits no
`validateProgram` call whatever the context's validation status would
be, and returns the program handle whenever the link status is
successful (first conjunct: the full behaviour, whose trace contains no
validation call; second conjunct: no `validateProgram` appears among the
emitted calls). -/
theorem makeProgram_skips_validation (env : GLEnv) (v f : Nat)
    (s : GLState) :
    makeProgram env v f false s =
      ((if env.linkOk s.nextHandle then .ok s.nextHandle
        else .error (.programLink ("ERROR linking program: "
            ++ env.programLog s.nextHandle))),
       ⟨s.nextHandle + 1,
        s.trace ++ [.createProgram, .attachShader s.nextHandle v,
            .attachShader s.nextHandle f, .linkProgram s.nextHandle,
            .getProgramParameter s.nextHandle LINK_STATUS]
          ++ (if env.linkOk s.nextHandle then []
              else [.getProgramInfoLog s.nextHandle])⟩)
    ∧ ∀ p, GLCall.validateProgram p ∉
        (makeProgram env v f false s).2.trace.drop s.trace.length := by
  constructor
  · cases hl : env.linkOk s.nextHandle <;>
      simp [makeProgram_run, mpRes, mpTrace, hl, List.append_assoc]
  · intro p
    rw [makeProgram_run]
    simp only [List.drop_left]
    cases hl : env.linkOk s.nextHandle <;> simp [mpTrace, hl]

/-- A context on which everything succeeds: both default script tags
resolve, every compile/link/validate status is successful, every
attribute resolves to location 0, canvas 300x150. -/
def envOk : GLEnv where
  compileOk := fun _ => true
  shaderLog := fun _ => ""
  linkOk := fun _ => true
  validateOk := fun _ => true
  programLog := fun _ => ""
  attribLoc := fun _ _ => 0
  canvasWidth := 300
  canvasHeight := 150
  document := fun id =>
    if id = "vertexShader" then some "vsrc"
    else if id = "fragmentShader" then some "fsrc" else none

/-- A context on which every shader compile fails with log "bad log". -/
def envBad : GLEnv where
  compileOk := fun _ => false
  shaderLog := fun _ => "bad log"
  linkOk := fun _ => true
  validateOk := fun _ => true
  programLog := fun _ => ""
  attribLoc := fun _ _ => 0
  canvasWidth := 300
  canvasHeight := 150
  document := fun _ => some "src"

/-- A context on which both the link status and the validate status are
unsuccessful. -/
def envNoLink : GLEnv where
  compileOk := fun _ => true
  shaderLog := fun _ => ""
  linkOk := fun _ => false
  validateOk := fun _ => false
  programLog := fun _ => "plog"
  attribLoc := fun _ _ => 0
  canvasWidth := 300
  canvasHeight := 150
  document := fun _ => some "src"

/-- A context whose attribute lookup always answers the `-1` not-found
sentinel. -/
def envNeg : GLEnv where
  compileOk := fun _ => true
  shaderLog := fun _ => ""
  linkOk := fun _ => true
  validateOk := fun _ => true
  programLog := fun _ => ""
  attribLoc := fun _ _ => -1
  canvasWidth := 300
  canvasHeight := 150
  document := fun _ => some "src"

/-- A context whose document resolves only the id "v" (to a source that
fails to compile with log "bad"). -/
def envC6 : GLEnv where
  compileOk := fun _ => false
  shaderLog := fun _ => "bad"
  linkOk := fun _ => true
  validateOk := fun _ => true
  programLog := fun _ => ""
  attribLoc := fun _ _ => 0
  canvasWidth := 300
  canvasHeight := 150
  document := fun id => if id = "v" then some "vs" else none

/-- A context whose document resolves no id at all. -/
def envMiss : GLEnv where
  compileOk := fun _ => true
  shaderLog := fun _ => ""
  linkOk := fun _ => true
  validateOk := fun _ => true
  programLog := fun _ => ""
  attribLoc := fun _ _ => 0
  canvasWidth := 300
  canvasHeight := 150
  document := fun _ => none

/-- A 2-component position attribute over a 2-float vertex, as in the
spec's end-to-end example. -/
def attrPos : AttributeObject := createAttribute "position" 2 2 FLOAT 0 4 false

theorem makeShader_compile_failure_witness :
    envBad.compileOk 0 = false
    ∧ makeShader envBad "src" VERTEX_SHADER ⟨0, []⟩ =
        (.error (.shaderCompile "ERROR compiling vertex shader: bad log"),
         ⟨1, [.createShader VERTEX_SHADER, .shaderSource 0 "src",
              .compileShader 0, .getShaderParameter 0 COMPILE_STATUS,
              .deleteShader 0, .getShaderInfoLog 0]⟩)
    ∧ GLCall.deleteShader 0
        ∈ (makeShader envBad "src" VERTEX_SHADER ⟨0, []⟩).2.trace :=
  ⟨rfl, (makeShader_compile_failure envBad "src" VERTEX_SHADER ⟨0, []⟩ rfl).1,
   (makeShader_compile_failure envBad "src" VERTEX_SHADER ⟨0, []⟩ rfl).2⟩

theorem makeProgram_skips_validation_witness :
    makeProgram envNoLink 5 6 false ⟨0, []⟩ =
      (.error (.programLink "ERROR linking program: plog"),
       ⟨1, [.createProgram, .attachShader 0 5, .attachShader 0 6,
            .linkProgram 0, .getProgramParameter 0 LINK_STATUS,
            .getProgramInfoLog 0]⟩)
    ∧ GLCall.validateProgram 0 ∉
        (makeProgram envNoLink 5 6 false ⟨0, []⟩).2.trace.drop 0 :=
  ⟨(makeProgram_skips_validation envNoLink 5 6 ⟨0, []⟩).1,
   (makeProgram_skips_validation envNoLink 5 6 ⟨0, []⟩).2 0⟩

theorem createBuffer_passes_through_location_witness :
    GLCall.vertexAttribPointer (-1) 2 FLOAT false 8 0
      ∈ (createBuffer envNeg 7 (some [1, 0]) [attrPos] ARRAY_BUFFER
          STATIC_DRAW ⟨0, []⟩).trace
    ∧ GLCall.enableVertexAttribArray (-1)
      ∈ (createBuffer envNeg 7 (some [1, 0]) [attrPos] ARRAY_BUFFER
          STATIC_DRAW ⟨0, []⟩).trace :=
  createBuffer_passes_through_location envNeg 7 (some [1, 0]) [attrPos]
    ARRAY_BUFFER STATIC_DRAW ⟨0, []⟩ attrPos (by decide)

/-- Claim C1: when both script lookups, both compiles, the link and the
validation succeed, `drawCanvas` makes exactly this sequence of context
calls, in order: program construction (two shaders compiled, program
linked and validated), buffer creation/upload and attribute
configuration, one viewport call with the canvas's pixel width and
height, one clear-color call with the given color, one clear call, one
`useProgram` call with the built program, and exactly one draw call with
mode triangle-strip, first 0, count 4. -/
theorem drawCanvas_call_order (env : GLEnv) (bufferData : Option (List Rat))
    (attributes : List AttributeObject) (vid fid vsrc fsrc : String)
    (c : ColorObject) (s : GLState)
    (hv : env.document vid = some vsrc) (hf : env.document fid = some fsrc)
    (hc1 : env.compileOk s.nextHandle = true)
    (hc2 : env.compileOk (s.nextHandle + 1) = true)
    (hl : env.linkOk (s.nextHandle + 2) = true)
    (hval : env.validateOk (s.nextHandle + 2) = true) :
    drawCanvas env bufferData attributes (vid, fid) c s =
      (.ok (),
       ⟨s.nextHandle + 4,
        s.trace ++
          ([.createShader VERTEX_SHADER, .shaderSource s.nextHandle vsrc,
            .compileShader s.nextHandle,
            .getShaderParameter s.nextHandle COMPILE_STATUS,
            .createShader FRAGMENT_SHADER,
            .shaderSource (s.nextHandle + 1) fsrc,
            .compileShader (s.nextHandle + 1),
            .getShaderParameter (s.nextHandle + 1) COMPILE_STATUS,
            .createProgram, .attachShader (s.nextHandle + 2) s.nextHandle,
            .attachShader (s.nextHandle + 2) (s.nextHandle + 1),
            .linkProgram (s.nextHandle + 2),
            .getProgramParameter (s.nextHandle + 2) LINK_STATUS,
            .validateProgram (s.nextHandle + 2),
            .getProgramParameter (s.nextHandle + 2) VALIDATE_STATUS,
            .createBuffer, .bindBuffer ARRAY_BUFFER (s.nextHandle + 3),
            .bufferData ARRAY_BUFFER bufferData STATIC_DRAW]
          ++ caTrace env (s.nextHandle + 2) attributes
          ++ [.viewport 0 0 env.canvasWidth env.canvasHeight,
              .clearColor c.r c.g c.b c.a, .clear COLOR_BUFFER_BIT,
              .useProgram (s.nextHandle + 2),
              .drawArrays TRIANGLE_STRIP 0 4])⟩) := by
  simp [drawCanvas_run, dcRes, dcNext, dcTrace, dcTail, cbTrace, mpfsRes,
    mpfsNext, mpfsTrace, msRes, msTrace, mpRes, mpTrace, hv, hf, hc1, hc2,
    hl, hval, List.append_assoc, Nat.add_assoc]

theorem drawCanvas_call_order_witness :
    envOk.document "vertexShader" = some "vsrc"
    ∧ envOk.compileOk 0 = true ∧ envOk.linkOk 2 = true
    ∧ drawCanvas envOk (some [-1, -1, 1, -1, -1, 1, 1, 1]) [attrPos]
        ("vertexShader", "fragmentShader") ⟨1, 0, 0, 1⟩ ⟨0, []⟩ =
      (.ok (),
       ⟨4, [.createShader VERTEX_SHADER, .shaderSource 0 "vsrc",
            .compileShader 0, .getShaderParameter 0 COMPILE_STATUS,
            .createShader FRAGMENT_SHADER, .shaderSource 1 "fsrc",
            .compileShader 1, .getShaderParameter 1 COMPILE_STATUS,
            .createProgram, .attachShader 2 0, .attachShader 2 1,
            .linkProgram 2, .getProgramParameter 2 LINK_STATUS,
            .validateProgram 2, .getProgramParameter 2 VALIDATE_STATUS,
            .createBuffer, .bindBuffer ARRAY_BUFFER 3,
            .bufferData ARRAY_BUFFER (some [-1, -1, 1, -1, -1, 1, 1, 1])
              STATIC_DRAW,
            .getAttribLocation 2 "position",
            .vertexAttribPointer 0 2 FLOAT false 8 0,
            .enableVertexAttribArray 0,
            .viewport 0 0 300 150, .clearColor 1 0 0 1,
            .clear COLOR_BUFFER_BIT, .useProgram 2,
            .drawArrays TRIANGLE_STRIP 0 4]⟩) :=
  ⟨rfl, rfl, rfl,
   drawCanvas_call_order envOk (some [-1, -1, 1, -1, -1, 1, 1, 1]) [attrPos]
     "vertexShader" "fragmentShader" "vsrc" "fsrc" ⟨1, 0, 0, 1⟩ ⟨0, []⟩
     rfl rfl rfl rfl rfl rfl⟩

/-- Claim C9: `drawCanvas` is deterministic in its inputs and the
context's responses: two invocations with identical inputs against two
contexts with the same fresh-handle counter (in particular two fresh,
identically-behaving contexts) return the same result and emit the same
sequence of context calls, whatever calls either context had seen
before. -/
theorem drawCanvas_deterministic (env : GLEnv)
    (bufferData : Option (List Rat)) (attributes : List AttributeObject)
    (ids : String × String) (c : ColorObject) (s1 s2 : GLState)
    (hn : s1.nextHandle = s2.nextHandle) :
    (drawCanvas env bufferData attributes ids c s1).1
      = (drawCanvas env bufferData attributes ids c s2).1
    ∧ (drawCanvas env bufferData attributes ids c s1).2.trace.drop
        s1.trace.length
      = (drawCanvas env bufferData attributes ids c s2).2.trace.drop
        s2.trace.length := by
  constructor <;> simp [drawCanvas_run, List.drop_left, hn]

theorem drawCanvas_deterministic_witness :
    (drawCanvas envOk (some [-1, -1, 1, -1, -1, 1, 1, 1]) [attrPos]
        ("vertexShader", "fragmentShader") ⟨1, 0, 0, 1⟩ ⟨0, []⟩).1
      = (drawCanvas envOk (some [-1, -1, 1, -1, -1, 1, 1, 1]) [attrPos]
        ("vertexShader", "fragmentShader") ⟨1, 0, 0, 1⟩
        ⟨0, [.clear COLOR_BUFFER_BIT]⟩).1
    ∧ (drawCanvas envOk (some [-1, -1, 1, -1, -1, 1, 1, 1]) [attrPos]
        ("vertexShader", "fragmentShader") ⟨1, 0, 0, 1⟩ ⟨0, []⟩).2.trace.drop 0
      = (drawCanvas envOk (some [-1, -1, 1, -1, -1, 1, 1, 1]) [attrPos]
        ("vertexShader", "fragmentShader") ⟨1, 0, 0, 1⟩
        ⟨0, [.clear COLOR_BUFFER_BIT]⟩).2.trace.drop 1 :=
  drawCanvas_deterministic envOk (some [-1, -1, 1, -1, -1, 1, 1, 1]) [attrPos]
    ("vertexShader", "fragmentShader") ⟨1, 0, 0, 1⟩ ⟨0, []⟩
    ⟨0, [.clear COLOR_BUFFER_BIT]⟩ rfl

lemma msTrace_no_delete (env : GLEnv) (src : String) (ty h : Nat)
    (hc : env.compileOk h = true) :
    (msTrace env src ty h).filter isDeleteCall = [] := by
  simp [msTrace, isDeleteCall, hc]

lemma mpTrace_no_delete (env : GLEnv) (v f : Nat) (validate : Bool)
    (h : Nat) : (mpTrace env v f validate h).filter isDeleteCall = [] := by
  cases hl : env.linkOk h <;> cases validate <;>
    cases hv : env.validateOk h <;>
      simp [mpTrace, isDeleteCall, hl, hv, List.filter_append]

lemma dcTail_no_delete (env : GLEnv) (bufferData : Option (List Rat))
    (attributes : List AttributeObject) (c : ColorObject)
    (program h : Nat) :
    (dcTail env bufferData attributes c program h).filter isDeleteCall
      = [] := by
  simp [dcTail, cbTrace, List.filter_append, caTrace_no_delete, isDeleteCall]

lemma mpfsTrace_no_delete (env : GLEnv) (vid fid : String) (h : Nat)
    (hall : ∀ n, env.compileOk n = true) :
    (mpfsTrace env vid fid h).filter isDeleteCall = [] := by
  rcases hv : env.document vid with _ | vsrc <;>
    rcases hf : env.document fid with _ | fsrc <;>
      simp [mpfsTrace, hv, hf, msRes, hall, List.filter_append,
        msTrace_no_delete _ _ _ _ (hall _), mpTrace_no_delete]

lemma dcTrace_no_delete (env : GLEnv) (bufferData : Option (List Rat))
    (attributes : List AttributeObject) (ids : String × String)
    (c : ColorObject) (h : Nat) (hall : ∀ n, env.compileOk n = true) :
    (dcTrace env bufferData attributes ids c h).filter isDeleteCall = [] := by
  rw [dcTrace, List.filter_append, mpfsTrace_no_delete env ids.1 ids.2 h hall]
  rcases hres : mpfsRes env ids.1 ids.2 h with e | program <;>
    simp [dcTail_no_delete]

/-- Claim C8: `makeProgram` never emits a release call — whether the
link or the validation status fails, the error propagates with no
`deleteShader`/`deleteProgram` on the new program or the attached
shaders (first conjunct, for every context); and the shader released on
compile failure is the only release in the system: whenever every
compile succeeds, a whole `drawCanvas` run emits no release call at all
(second conjunct). -/
theorem makeProgram_propagates_without_release :
    (∀ (env : GLEnv) (v f : Nat) (validate : Bool) (s : GLState),
      (makeProgram env v f validate s).2.trace.filter isDeleteCall
        = s.trace.filter isDeleteCall)
    ∧ ∀ (env : GLEnv) (bufferData : Option (List Rat))
        (attributes : List AttributeObject) (ids : String × String)
        (c : ColorObject) (s : GLState), (∀ n, env.compileOk n = true) →
        (drawCanvas env bufferData attributes ids c s).2.trace.filter
            isDeleteCall
          = s.trace.filter isDeleteCall := by
  constructor
  · intro env v f validate s
    rw [makeProgram_run]
    simp [List.filter_append, mpTrace_no_delete]
  · intro env bufferData attributes ids c s hall
    rw [drawCanvas_run]
    simp [List.filter_append, dcTrace_no_delete env bufferData attributes
      ids c s.nextHandle hall]

theorem makeProgram_propagates_without_release_witness :
    (makeProgram envNoLink 5 6 true ⟨0, []⟩).2.trace.filter isDeleteCall = []
    ∧ (drawCanvas envOk (some [-1, -1, 1, -1, -1, 1, 1, 1]) [attrPos]
        ("vertexShader", "fragmentShader") ⟨1, 0, 0, 1⟩
        ⟨0, []⟩).2.trace.filter isDeleteCall = [] :=
  ⟨makeProgram_propagates_without_release.1 envNoLink 5 6 true ⟨0, []⟩,
   makeProgram_propagates_without_release.2 envOk
     (some [-1, -1, 1, -1, -1, 1, 1, 1]) [attrPos]
     ("vertexShader", "fragmentShader") ⟨1, 0, 0, 1⟩ ⟨0, []⟩ fun _ => rfl⟩

/-- Counterexample to claim C6 as stated: on `envC6` the vertex id "v"
resolves but its shader fails to compile, and the fragment id "f" does
not resolve; `makeProgramFromScripts` then fails with the shader-compile
error, not with a missing-element error, because the vertex compile
failure is thrown before the fragment lookup ever happens. -/
theorem makeProgramFromScripts_missing_element_counterexample :
    envC6.document "v" = some "vs"
    ∧ envC6.document "f" = none
    ∧ (makeProgramFromScripts envC6 "v" "f" ⟨0, []⟩).1
        = .error (.shaderCompile "ERROR compiling vertex shader: bad") :=
  ⟨rfl, rfl, rfl⟩

/-- Claim C6 (amended): a failed vertex-id lookup fails with a
missing-element error before any context call; if the vertex id resolves
and its shader compiles, a failed fragment-id lookup fails with a
missing-element error; a vertex-shader compile failure preempts the
fragment lookup and is propagated unchanged; for identifiers that do
resolve, shader-compile errors of either shader are propagated
unchanged, and with both shaders compiled the call continues as
`makeProgram` with validation on, so link/validate errors are likewise
propagated unchanged. -/
theorem makeProgramFromScripts_error_paths (env : GLEnv) (vid fid : String)
    (s : GLState) :
    (env.document vid = none →
      makeProgramFromScripts env vid fid s
        = (.error (.missingElement vid), s))
    ∧ (∀ vsrc, env.document vid = some vsrc →
        env.compileOk s.nextHandle = true → env.document fid = none →
        (makeProgramFromScripts env vid fid s).1
          = .error (.missingElement fid))
    ∧ (∀ vsrc e s1, env.document vid = some vsrc →
        makeShader env vsrc VERTEX_SHADER s = (.error e, s1) →
        makeProgramFromScripts env vid fid s = (.error e, s1))
    ∧ (∀ vsrc fsrc v s1 e s2, env.document vid = some vsrc →
        env.document fid = some fsrc →
        makeShader env vsrc VERTEX_SHADER s = (.ok v, s1) →
        makeShader env fsrc FRAGMENT_SHADER s1 = (.error e, s2) →
        makeProgramFromScripts env vid fid s = (.error e, s2))
    ∧ (∀ vsrc fsrc v s1 f s2, env.document vid = some vsrc →
        env.document fid = some fsrc →
        makeShader env vsrc VERTEX_SHADER s = (.ok v, s1) →
        makeShader env fsrc FRAGMENT_SHADER s1 = (.ok f, s2) →
        makeProgramFromScripts env vid fid s
          = makeProgram env v f true s2) := by
  refine ⟨?_, ?_, ?_, ?_, ?_⟩
  · intro h
    simp [makeProgramFromScripts, h]
  · intro vsrc hv hc hf
    simp [makeProgramFromScripts, hv, hf, makeShader_run, msRes, hc]
  · intro vsrc e s1 hv hms
    simp [makeProgramFromScripts, hv, hms]
  · intro vsrc fsrc v s1 e s2 hv hf hms1 hms2
    simp [makeProgramFromScripts, hv, hf, hms1, hms2]
  · intro vsrc fsrc v s1 f s2 hv hf hms1 hms2
    simp [makeProgramFromScripts, hv, hf, hms1, hms2]

theorem makeProgramFromScripts_error_paths_witness :
    makeProgramFromScripts envMiss "vertexShader" "fragmentShader" ⟨0, []⟩
      = (.error (.missingElement "vertexShader"), ⟨0, []⟩)
    ∧ (makeProgramFromScripts envC6 "v" "w" ⟨0, []⟩).1
        = .error (.shaderCompile "ERROR compiling vertex shader: bad") := by
  constructor
  · exact (makeProgramFromScripts_error_paths envMiss "vertexShader"
      "fragmentShader" ⟨0, []⟩).1 rfl
  · have h := (makeProgramFromScripts_error_paths envC6 "v" "w"
      ⟨0, []⟩).2.2.1 "vs"
      (.shaderCompile "ERROR compiling vertex shader: bad")
      ⟨1, [.createShader VERTEX_SHADER, .shaderSource 0 "vs",
           .compileShader 0, .getShaderParameter 0 COMPILE_STATUS,
           .deleteShader 0, .getShaderInfoLog 0]⟩ rfl rfl
    rw [h]
